import Mathlib

/-!
Verification of the QuiverAI retrieval-and-caching core: a shallow
embedding of knowledge.py (index lifecycle) and chatbot.py (two-tier
cache, stream parsing, the ask orchestrator), with theorems settling the
frozen claims about them.
-/

namespace QuiverAI

/-! Configuration constants from config.py. -/

def CHUNK_SIZE : Nat := 1000

def CHUNK_OVERLAP : Nat := 100

def TOP_K : Nat := 5

def CACHE_SIZE : Nat := 1024

/-! String helpers mirroring the Python string operations used by the code. -/

def listStarts {α : Type} [DecidableEq α] : List α → List α → Bool
  | [], _ => true
  | _ :: _, [] => false
  | a :: pre, b :: l => if a = b then listStarts pre l else false

def strStarts (pre s : String) : Bool := listStarts pre.toList s.toList

def strEnds (suf s : String) : Bool := listStarts suf.toList.reverse s.toList.reverse

def strLower (s : String) : String := String.mk (s.toList.map Char.toLower)

/-- os.path.basename for posix paths: the characters after the last slash. -/
def basename (p : String) : String :=
  String.mk ((p.toList.reverse.takeWhile (fun c => !(c == '/'))).reverse)

/-- Index of the last dot in a character list, if any. -/
def lastDotIdx : List Char → Option Nat
  | [] => none
  | c :: cs =>
    match lastDotIdx cs with
    | some i => some (i + 1)
    | none => if c = '.' then some 0 else none

/-- The extension component of os.path.splitext(path): the suffix of the last
path component from its last dot, unless every character before that dot is
itself a dot (leading dots of a filename never start an extension). -/
def splitextExt (p : String) : String :=
  match lastDotIdx (basename p).toList with
  | none => ""
  | some i =>
    if ((basename p).toList.take i).any (fun c => !(c == '.')) then
      String.mk ((basename p).toList.drop i)
    else ""

/-! Data model from knowledge.py. -/

inductive KnowledgeType
  | document
  | url
deriving DecidableEq

def KnowledgeType.value : KnowledgeType → String
  | .document => "document"
  | .url => "url"

structure KnowledgeSource where
  id : String
  name : String
  type : KnowledgeType
  content : String
deriving DecidableEq

/-- One persisted unit in the vector index: the id written by the code is
srcId ++ "::chunk" ++ i, together with the chunk text and its metadata. -/
structure IndexEntry where
  id : String
  text : String
  metaSource : String
  metaType : String
deriving DecidableEq

/-- The on-disk state knowledge.py manipulates: the files of DOCS_PATH as
(filename, extracted text) pairs, the filenames present under INDEX_PATH,
and the persisted index entries. -/
structure KnowState where
  docs : List (String × String)
  indexFiles : List String
  entries : List IndexEntry
deriving DecidableEq

def addFile (f : String) (fs : List String) : List String :=
  if f ∈ fs then fs else f :: fs

/-- The chunks derived for one source: split the content, then id each chunk
with the enumeration index, exactly as build_vector_store / add_source_to_index
do. The splitter is the external RecursiveCharacterTextSplitter capability. -/
def chunksOf (split : String → List String) (src : KnowledgeSource) : List IndexEntry :=
  (split src.content).enum.map
    (fun p => ⟨src.id ++ "::chunk" ++ toString p.1, p.2, src.name, src.type.value⟩)

/-- build_vector_store: wipe and rebuild the index from the given sources.
If no chunks result, do nothing. Otherwise overwrite the index entries and
save, which writes the files index.faiss and index.pkl (FAISS save_local with
the default index name). -/
def build_vector_store (split : String → List String) (sources : List KnowledgeSource)
    (s : KnowState) : KnowState :=
  if (sources.map (chunksOf split)).flatten = [] then s
  else
    ⟨s.docs, addFile "index.pkl" (addFile "index.faiss" s.indexFiles),
      (sources.map (chunksOf split)).flatten⟩

/-- The sources initialize_knowledge collects: every file of DOCS_PATH whose
lowercased name ends in .pdf, .txt or .md, loaded via load_from_file, hence
with id "file://" ++ filename. -/
def docSources (docs : List (String × String)) : List KnowledgeSource :=
  (docs.filter (fun d =>
      strEnds ".pdf" (strLower d.1) || strEnds ".txt" (strLower d.1) ||
        strEnds ".md" (strLower d.1))).map
    (fun d => ⟨"file://" ++ d.1, d.1, KnowledgeType.document, d.2⟩)

/-- initialize_knowledge: scan DOCS_PATH and fully rebuild the index from
every PDF/TXT/MD file found there. -/
def initialize_knowledge (split : String → List String) (s : KnowState) : KnowState :=
  build_vector_store split (docSources s.docs) s

/-- delete_source_from_index: the code ignores its source_id argument and
re-indexes everything from the docs folder. -/
def delete_source_from_index (split : String → List String) (_sourceId : String)
    (s : KnowState) : KnowState :=
  initialize_knowledge split s

/-- add_source_to_index: derive the chunks of the new source; if the file
faiss_index.index exists under INDEX_PATH, load the store, append the new
chunks and save; otherwise rebuild from just this one source. -/
def add_source_to_index (split : String → List String) (source : KnowledgeSource)
    (s : KnowState) : KnowState :=
  if "faiss_index.index" ∈ s.indexFiles then
    ⟨s.docs, addFile "index.pkl" (addFile "index.faiss" s.indexFiles),
      s.entries ++ chunksOf split source⟩
  else
    build_vector_store split [source] s

/-- A file loader capability for load_from_file: paths to page contents.
TextLoader for .txt and .md, PyPDFLoader for .pdf. -/
structure FileLoaders where
  textLoad : String → List String
  pdfLoad : String → List String

/-- load_from_file: dispatch on the lowercased splitext extension; .txt and
.md use the text loader, .pdf the PDF loader, anything else raises ValueError.
The source id is "file://" ++ basename and pages are joined by blank lines. -/
def load_from_file (L : FileLoaders) (path : String) : Except String KnowledgeSource :=
  if strLower (splitextExt path) = ".txt" ∨ strLower (splitextExt path) = ".md" then
    Except.ok ⟨"file://" ++ basename path, basename path, KnowledgeType.document,
      String.intercalate "\n\n" (L.textLoad path)⟩
  else if strLower (splitextExt path) = ".pdf" then
    Except.ok ⟨"file://" ++ basename path, basename path, KnowledgeType.document,
      String.intercalate "\n\n" (L.pdfLoad path)⟩
  else
    Except.error ("Unsupported file extension: " ++ strLower (splitextExt path))

/-! Concrete instances used by the closed theorems below. -/

def split1 : String → List String := fun s => [s]

def srcA : KnowledgeSource := ⟨"file://a.txt", "a.txt", KnowledgeType.document, "alpha"⟩

def srcB : KnowledgeSource := ⟨"file://b.txt", "b.txt", KnowledgeType.document, "beta"⟩

def fileEntryA : IndexEntry := ⟨"file://a.txt::chunk0", "alpha", "a.txt", "document"⟩

def fileEntryB : IndexEntry := ⟨"file://b.txt::chunk0", "beta", "b.txt", "document"⟩

def urlEntry : IndexEntry := ⟨"url://123::chunk0", "web text", "example.com", "url"⟩

/-- A state holding one file-backed source (its file still in docs/) and one
URL-only source, both indexed. -/
def stateC1 : KnowState :=
  ⟨[("a.txt", "alpha")], ["index.faiss", "index.pkl"], [fileEntryA, urlEntry]⟩

/-- The state produced by building the index from srcA alone. -/
def stateC2 : KnowState := build_vector_store split1 [srcA] ⟨[], [], []⟩

/-- A file loader returning fixed page contents. -/
def loaders0 : FileLoaders := ⟨fun _ => ["alpha"], fun _ => ["pdf text"]⟩

/-! chatbot.py: think markers, chunk types and the stream parser. -/

def THINK_START : String := "<think>"

def THINK_END : String := "</think>"

inductive ChunkType
  | content
  | start_think
  | thinking
  | end_think
deriving DecidableEq

structure Chunk where
  type : ChunkType
  content : String
deriving DecidableEq

/-- The token loop of the streaming branch of ask: a marker token flips the
in_think flag and is emitted as a StartThink or EndThink chunk with empty
text; any other token is emitted verbatim, as Thinking while in_think holds
and as Content otherwise. -/
def streamChunks : Bool → List String → List Chunk
  | _, [] => []
  | inThink, t :: ts =>
    if t = THINK_START then ⟨ChunkType.start_think, ""⟩ :: streamChunks true ts
    else if t = THINK_END then ⟨ChunkType.end_think, ""⟩ :: streamChunks false ts
    else ⟨if inThink then ChunkType.thinking else ChunkType.content, t⟩ :: streamChunks inThink ts

/-! chatbot.py: prompt templates. -/

def SYSTEM_PROMPT : String :=
  "You\x27re QuiverAI, an assistant answering questions about the user\x27s documents.\nUse only the provided excerpts. If you don\x27t know the answer, say so and ask for clarification."

/-- The human message of PROMPT_TEMPLATE with context and question filled in. -/
def promptBody (context question : String) : String :=
  "Here\x27s the information you have about the files:\n\n<context>\n" ++ context ++
    "\n</context>\n\nPlease respond to the query below:\n\n<question>\n" ++ question ++
    "\n</question>\n\nAnswer:"

structure ChatMessage where
  role : String
  content : String
deriving DecidableEq

/-- _create_chat_history: role user becomes a Human message, anything else an
AI message. History entries are (role, content) pairs. -/
def createChatHistory (history : List (String × String)) : List ChatMessage :=
  history.map (fun m => if m.1 = "user" then ⟨"Human", m.2⟩ else ⟨"AI", m.2⟩)

/-- PROMPT_TEMPLATE.format_prompt: system instructions, then the chat history
turns, then the human message holding context and question. -/
def promptMessages (context question : String) (chatHistory : List ChatMessage) :
    List ChatMessage :=
  ⟨"System", SYSTEM_PROMPT⟩ :: (chatHistory ++ [⟨"Human", promptBody context question⟩])

/-- ChatPromptValue.to_string: each message rendered as role colon content,
joined by newlines. -/
def promptToString (msgs : List ChatMessage) : String :=
  String.intercalate "\n" (msgs.map (fun m => m.role ++ ": " ++ m.content))

/-- The prompt string _cached_answer generates from: chat_history is empty. -/
def answerPrompt (context question : String) : String :=
  promptToString (promptMessages context question [])

/-! The two lru_cache layers, modelled as association lists with the most
recently used entry first and eviction past CACHE_SIZE entries. -/

def alookup {κ β : Type} [DecidableEq κ] (k : κ) : List (κ × β) → Option β
  | [] => none
  | p :: c => if p.1 = k then some p.2 else alookup k c

def removeKey {κ β : Type} [DecidableEq κ] (k : κ) (c : List (κ × β)) : List (κ × β) :=
  c.filter (fun p => if p.1 = k then false else true)

abbrev RetrieveCache := List (String × List String)

abbrev AnswerCache := List ((String × String) × String)

/-- One lru_cache-wrapped call: a hit returns the stored value and moves the
key to the front; a miss invokes the compute function once, stores the result
at the front and evicts beyond capacity. The third component counts how many
times compute ran during this call. -/
def cacheGetOrCompute {κ : Type} [DecidableEq κ] (c : List (κ × String)) (k : κ)
    (f : Unit → String) : String × List (κ × String) × Nat :=
  match alookup k c with
  | some v => (v, (k, v) :: removeKey k c, 0)
  | none => (f (), ((k, f ()) :: c).take CACHE_SIZE, 1)

/-! The vector index collaborator behind _cached_retrieve. -/

abbrev Metadata := List (String × String)

structure QueryResult where
  documents : Option (List (List String))
  metadatas : Option (List (List Metadata))

/-- Modelled from the spec: CHROMA_COLLECTION is imported by chatbot.py from
knowledge but is defined nowhere under src; section 6 of the spec specifies
the vector index collaborator as a query(vector, k) to ranked results
capability, which this structure captures. -/
structure ChromaCollection where
  query : String → Nat → QueryResult

/-- The defensive extraction (res.get(field) or [[]])[0] or [] used by
_cached_retrieve: a missing or empty outer list yields the empty inner list,
otherwise the first inner list. -/
def firstInner {γ : Type} : Option (List (List γ)) → List γ
  | none => []
  | some [] => []
  | some (d :: _) => d

/-- The formatting loop of _cached_retrieve: "[source] text" per hit, reading
metadatas[i] for each document index, which raises IndexError (modelled as
none) when the metadata list is shorter than the document list. -/
def formatHits (docs : List String) (metas : List Metadata) : Option (List String) :=
  if docs.length ≤ metas.length then
    some ((List.range docs.length).map
      (fun i => "[" ++ ((alookup "source" (metas.getD i [])).getD "unknown") ++ "] "
        ++ docs.getD i ""))
  else none

/-- The compute part of _cached_retrieve: query the shared collection with
TOP_K and format the first result lists. -/
def cachedRetrieveCompute (col : ChromaCollection) (q : String) : Option (List String) :=
  formatHits (firstInner (col.query q TOP_K).documents)
    (firstInner (col.query q TOP_K).metadatas)

/-- _cached_retrieve with its lru_cache layer threaded explicitly. -/
def cachedRetrieve (col : ChromaCollection) (rc : RetrieveCache) (q : String) :
    Option (List String × RetrieveCache) :=
  match alookup q rc with
  | some v => some (v, (q, v) :: removeKey q rc)
  | none =>
    match cachedRetrieveCompute col q with
    | none => none
    | some v => some (v, ((q, v) :: rc).take CACHE_SIZE)

/-! The ask orchestrator. -/

/-- The LLM collaborator: generate for the blocking full answer, stream for
the token stream. -/
structure LLM where
  generate : String → String
  stream : String → List String

/-- The context string: retrieved hits joined by blank lines. -/
def askContext (hits : List String) : String := String.intercalate "\n\n" hits

/-- The _cached_answer call made by ask: keyed on (query, context), computing
via the blocking generate on the empty-history prompt. The env LLM models the
module-level get_llm(). -/
def askAnswerCall (env : LLM) (q context : String) (ac : AnswerCache) :
    String × AnswerCache × Nat :=
  cacheGetOrCompute ac (q, context) (fun _ => env.generate (answerPrompt context q))

/-- Everything observable about one ask call: the chunks it yielded, both
caches afterwards, whether the streaming branch ran, how many times the
blocking generate was invoked, and the full answer _cached_answer returned. -/
structure AskResult where
  chunks : List Chunk
  retrieveCache : RetrieveCache
  answerCache : AnswerCache
  streamOpened : Bool
  generateCalls : Nat
  fullAns : String
deriving DecidableEq

/-- The streaming branch of ask: _create_prompt retrieves again (through the
cache), builds the prompt with the real chat history, streams from the passed
llm or the global one, parses the tokens, then calls _cached_answer once more
with the original context. -/
def askStream (env : LLM) (llmArg : Option LLM) (col : ChromaCollection) (q : String)
    (history : List (String × String)) (context : String) (rc1 : RetrieveCache)
    (r1 : String × AnswerCache × Nat) : Option AskResult :=
  match cachedRetrieve col rc1 q with
  | none => none
  | some (hits2, rc2) =>
    some ⟨streamChunks false ((llmArg.getD env).stream
        (promptToString (promptMessages (askContext hits2) q (createChatHistory history)))),
      rc2,
      (askAnswerCall env q context r1.2.1).2.1,
      true,
      r1.2.2 + (askAnswerCall env q context r1.2.1).2.2,
      r1.1⟩

/-- ask after the first retrieval: call _cached_answer; a truthy (non-empty)
answer is yielded as a single Content chunk, otherwise the streaming branch
runs. -/
def askAfterRetrieve (env : LLM) (llmArg : Option LLM) (col : ChromaCollection)
    (q : String) (history : List (String × String)) (hits : List String)
    (rc1 : RetrieveCache) (ac : AnswerCache) : Option AskResult :=
  if (askAnswerCall env q (askContext hits) ac).1 = "" then
    askStream env llmArg col q history (askContext hits) rc1
      (askAnswerCall env q (askContext hits) ac)
  else
    some ⟨[⟨ChunkType.content, (askAnswerCall env q (askContext hits) ac).1⟩],
      rc1,
      (askAnswerCall env q (askContext hits) ac).2.1,
      false,
      (askAnswerCall env q (askContext hits) ac).2.2,
      (askAnswerCall env q (askContext hits) ac).1⟩

/-- ask(query, history, sources, llm): retrieve context through the retrieval
cache, then branch on the cached answer. The sources argument is accepted and
never read, as in the code. -/
def ask (env : LLM) (llmArg : Option LLM) (col : ChromaCollection) (query : String)
    (history : List (String × String)) (_sources : List (String × KnowledgeSource))
    (rc : RetrieveCache) (ac : AnswerCache) : Option AskResult :=
  match cachedRetrieve col rc query with
  | none => none
  | some (hits, rc1) => askAfterRetrieve env llmArg col query history hits rc1 ac

/-! The application-level state tying the index to the two caches, for the
claim that index mutations never invalidate the caches. -/

structure AppState where
  know : KnowState
  retrieveCache : RetrieveCache
  answerCache : AnswerCache

/-- Uploading a source: add_source_to_index touches only the index state;
neither chatbot.py cache is cleared or written. -/
def appAddSource (split : String → List String) (src : KnowledgeSource)
    (s : AppState) : AppState :=
  ⟨add_source_to_index split src s.know, s.retrieveCache, s.answerCache⟩

/-- Deleting a source: delete_source_from_index touches only the index state;
neither chatbot.py cache is cleared or written. -/
def appDeleteSource (split : String → List String) (sid : String)
    (s : AppState) : AppState :=
  ⟨delete_source_from_index split sid s.know, s.retrieveCache, s.answerCache⟩

/-! Concrete LLMs, collections and results for the closed theorems. -/

/-- A collection over an empty index: Chroma answers a query with one empty
result list per query text. -/
def emptyCollection : ChromaCollection := ⟨fun _ _ => ⟨some [[]], some [[]]⟩⟩

/-- An LLM whose blocking generate returns a fixed non-empty answer. -/
def llmHello : LLM := ⟨fun _ => "hello", fun _ => ["tok"]⟩

/-- An LLM whose blocking generate returns the empty string while its token
stream carries a think segment. -/
def llmEmptyGen : LLM := ⟨fun _ => "", fun _ => [THINK_START, "x", THINK_END, "y"]⟩

/-- The result of ask with llmHello on empty caches. -/
def askHelloResult : AskResult :=
  ⟨[⟨ChunkType.content, "hello"⟩], [("q", [])], [(("q", ""), "hello")], false, 1, "hello"⟩

/-- The chunks both calls of the C5 counterexample emit. -/
def cxChunks : List Chunk :=
  [⟨ChunkType.start_think, ""⟩, ⟨ChunkType.thinking, "x"⟩,
    ⟨ChunkType.end_think, ""⟩, ⟨ChunkType.content, "y"⟩]

/-- An application state with a populated retrieval cache entry and answer
cache entry. -/
def appState9 : AppState :=
  ⟨⟨[], [], []⟩, [("q", ["[a.txt] alpha"])], [(("q", "ctx"), "ans")]⟩

/-! Helper lemmas. -/

theorem take_cacheSize_singleton {α : Type} (p : α) : List.take CACHE_SIZE [p] = [p] := by
  rw [show CACHE_SIZE = 1023 + 1 from rfl, List.take_succ_cons, List.take_nil]

theorem alookup_take_head {κ β : Type} [DecidableEq κ] (k : κ) (v : β) (c : List (κ × β))
    (n : Nat) (hn : 0 < n) : alookup k (((k, v) :: c).take n) = some v := by
  cases n with
  | zero => exact absurd hn (by simp)
  | succ m => simp [List.take_succ_cons, alookup]

/-- Any successful ask call whose _cached_answer result is non-empty took the
single-Content branch; the streaming branch forces an empty full answer.
Shared shape lemma used below. -/
theorem ask_hit (env : LLM) (llmArg : Option LLM) (col : ChromaCollection)
    (q : String) (history : List (String × String)) (srcs : List (String × KnowledgeSource))
    (rc : RetrieveCache) (ac : AnswerCache) (hits : List String) (a : String)
    (hr : alookup q rc = some hits) (ha : alookup (q, askContext hits) ac = some a)
    (hne : a ≠ "") :
    ask env llmArg col q history srcs rc ac =
      some ⟨[⟨ChunkType.content, a⟩], (q, hits) :: removeKey q rc,
        ((q, askContext hits), a) :: removeKey (q, askContext hits) ac, false, 0, a⟩ := by
  simp [ask, cachedRetrieve, hr, askAfterRetrieve, askAnswerCall, cacheGetOrCompute, ha, hne]

/-- A successful ask call from empty caches whose full answer is non-empty
leaves exactly one entry in each cache and yields a single Content chunk. -/
theorem ask_empty_shape (env : LLM) (llmArg : Option LLM) (col : ChromaCollection)
    (q : String) (history : List (String × String)) (srcs : List (String × KnowledgeSource))
    (r : AskResult) (h : ask env llmArg col q history srcs [] [] = some r)
    (hne : r.fullAns ≠ "") :
    ∃ hits, cachedRetrieveCompute col q = some hits ∧
      r.retrieveCache = [(q, hits)] ∧
      r.answerCache = [((q, askContext hits), r.fullAns)] ∧
      r.chunks = [⟨ChunkType.content, r.fullAns⟩] ∧ r.streamOpened = false := by
  unfold ask at h
  split at h
  · exact absurd h (by simp)
  next hits0 rc1 heq =>
    unfold cachedRetrieve at heq
    simp only [alookup] at heq
    split at heq
    · exact absurd heq (by simp)
    next v hv =>
      rw [take_cacheSize_singleton] at heq
      injection heq with heq
      injection heq with heqa heqb
      subst heqa
      subst heqb
      unfold askAfterRetrieve at h
      split at h
      next hfa =>
        unfold askStream at h
        split at h
        · exact absurd h (by simp)
        next hits2 rc2 heq2 =>
          injection h with h
          subst h
          exact absurd hfa hne
      next hfa =>
        injection h with h
        subst h
        refine ⟨v, hv, rfl, ?_, rfl, rfl⟩
        show (askAnswerCall env q (askContext v) []).2.1 =
          [((q, askContext v), (askAnswerCall env q (askContext v) []).1)]
        simp [askAnswerCall, cacheGetOrCompute, alookup, take_cacheSize_singleton]

/-- C1: deleting the file-backed source file://a.txt from a state that also
holds a URL-only source does the opposite of the claim: the deleted source
entry survives (its file is rescanned from docs/) and the URL source entry,
which should remain, is dropped, because delete_source_from_index ignores its
argument and rebuilds from a docs-folder scan. -/
theorem delete_source_rescan_divergence :
    fileEntryA ∈ (delete_source_from_index split1 "file://a.txt" stateC1).entries ∧
    (∀ e ∈ (delete_source_from_index split1 "file://a.txt" stateC1).entries,
      strStarts "url://123::" e.id = false) ∧
    urlEntry ∈ stateC1.entries ∧ strStarts "url://123::" urlEntry.id = true := by
  decide

/-- C2: adding srcB to an index already holding srcA erases the existing
entry: add_source_to_index tests for the file faiss_index.index, which no
writer ever creates (save_local writes index.faiss), so it always rebuilds
from the single new source. -/
theorem add_source_wipes_existing_entries :
    fileEntryA ∈ stateC2.entries ∧
    (add_source_to_index split1 srcB stateC2).entries = [fileEntryB] ∧
    fileEntryA ∉ (add_source_to_index split1 srcB stateC2).entries := by
  decide

/-- C3: ask on a cache miss never opens a token stream: _cached_answer
computes the full answer with the blocking generate call, and ask yields it
as one Content chunk. Evaluated at the failing input: empty caches (so the
answer cache has no entry for the query and its context) and an LLM whose
generate returns "hello". -/
theorem ask_cache_miss_no_stream :
    alookup ("q", "") ([] : AnswerCache) = none ∧
    ask llmHello none emptyCollection "q" [] [] [] [] = some askHelloResult := by
  exact ⟨rfl, rfl⟩

/-- C4: the stream parser maps the token sequence A, start marker, B, C, end
marker, D to Content A, StartThink, Thinking B, Thinking C, EndThink,
Content D; marker tokens are consumed and emitted with empty text, and any
other token is emitted verbatim, as Content in the Normal state and as
Thinking in the InThink state. -/
theorem think_marker_parsing :
    streamChunks false ["A", THINK_START, "B", "C", THINK_END, "D"] =
      [⟨ChunkType.content, "A"⟩, ⟨ChunkType.start_think, ""⟩, ⟨ChunkType.thinking, "B"⟩,
        ⟨ChunkType.thinking, "C"⟩, ⟨ChunkType.end_think, ""⟩, ⟨ChunkType.content, "D"⟩] ∧
    (∀ st ts, streamChunks st (THINK_START :: ts) =
      ⟨ChunkType.start_think, ""⟩ :: streamChunks true ts) ∧
    (∀ st ts, streamChunks st (THINK_END :: ts) =
      ⟨ChunkType.end_think, ""⟩ :: streamChunks false ts) ∧
    (∀ st t ts, t ≠ THINK_START → t ≠ THINK_END →
      streamChunks st (t :: ts) =
        ⟨if st then ChunkType.thinking else ChunkType.content, t⟩ :: streamChunks st ts) := by
  refine ⟨by decide, ?_, ?_, ?_⟩
  · intro st ts
    simp [streamChunks]
  · intro st ts
    simp [streamChunks]
    decide
  · intro st t ts h1 h2
    simp only [streamChunks]
    rw [if_neg h1, if_neg h2]

/-- C4 witness: a non-marker token in the InThink state is emitted verbatim
as a Thinking chunk. -/
theorem think_marker_parsing_witness :
    streamChunks true ["x"] = [⟨ChunkType.thinking, "x"⟩] :=
  think_marker_parsing.2.2.2 true "x" [] (by decide) (by decide)

/-- C5 counterexample: with an LLM whose blocking generate returns the empty
string and whose stream carries a think segment, the second identical ask
call streams again and emits StartThink and Thinking chunks instead of one
cached Content chunk, because the post-stream _cached_answer call is a cache
hit on the stored empty string and never stores the streamed text. -/
theorem ask_twice_empty_answer_restreams :
    ask llmEmptyGen none emptyCollection "X" [] [] [] [] =
      some ⟨cxChunks, [("X", [])], [(("X", ""), "")], true, 1, ""⟩ ∧
    ask llmEmptyGen none emptyCollection "X" [] [] [("X", [])] [(("X", ""), "")] =
      some ⟨cxChunks, [("X", [])], [(("X", ""), "")], true, 0, ""⟩ ∧
    (⟨ChunkType.start_think, ""⟩ : Chunk) ∈ cxChunks ∧
    (⟨ChunkType.thinking, "x"⟩ : Chunk) ∈ cxChunks ∧
    cxChunks.length = 4 := by
  refine ⟨rfl, rfl, by decide, by decide, by decide⟩

/-- C5 as amended: calling ask(q, empty history, empty sources) twice with an
unchanged index, provided the full answer computed for (q, context) on the
first call is non-empty, the second call emits that answer as a single
Content chunk, with no Thinking or StartThink chunks, no stream, and no new
generate invocation: it is served from the answer cache. -/
theorem ask_twice_cached_single_content (env : LLM) (llmArg : Option LLM)
    (col : ChromaCollection) (q : String) (r1 : AskResult)
    (h1 : ask env llmArg col q [] [] [] [] = some r1) (hne : r1.fullAns ≠ "") :
    ask env llmArg col q [] [] r1.retrieveCache r1.answerCache =
      some ⟨[⟨ChunkType.content, r1.fullAns⟩], r1.retrieveCache, r1.answerCache,
        false, 0, r1.fullAns⟩ := by
  obtain ⟨hits, hv, hrc, hac, hchunks, hso⟩ :=
    ask_empty_shape env llmArg col q [] [] r1 h1 hne
  rw [hrc, hac]
  rw [ask_hit env llmArg col q [] [] [(q, hits)] [((q, askContext hits), r1.fullAns)]
    hits r1.fullAns (by simp [alookup]) (by simp [alookup]) hne]
  simp [removeKey]

/-- C5 witness: with the concrete non-empty answer "hello", the second call
is served from the answer cache as a single Content chunk. -/
theorem ask_twice_cached_single_content_witness :
    ask llmHello none emptyCollection "q" [] [] askHelloResult.retrieveCache
      askHelloResult.answerCache =
      some ⟨[⟨ChunkType.content, askHelloResult.fullAns⟩], askHelloResult.retrieveCache,
        askHelloResult.answerCache, false, 0, askHelloResult.fullAns⟩ :=
  ask_twice_cached_single_content llmHello none emptyCollection "q" askHelloResult rfl
    (by decide)

/-- C6: after one lru-cached answer call for a key, a second call with the
same key returns the same stored value and never runs the compute function
again. -/
theorem cached_answer_memoizes (c : AnswerCache) (q ctx : String) (f : Unit → String) :
    (cacheGetOrCompute (cacheGetOrCompute c (q, ctx) f).2.1 (q, ctx) f).1 =
      (cacheGetOrCompute c (q, ctx) f).1 ∧
    (cacheGetOrCompute (cacheGetOrCompute c (q, ctx) f).2.1 (q, ctx) f).2.2 = 0 := by
  cases h : alookup (q, ctx) c with
  | some v =>
    simp [cacheGetOrCompute, h, alookup]
  | none =>
    simp [cacheGetOrCompute, h,
      alookup_take_head (q, ctx) (f ()) c CACHE_SIZE (by decide)]

/-- C7: retrieval against an empty index returns an empty sequence of
formatted strings and never raises, both at the compute layer and through
the retrieval cache. -/
theorem retrieve_empty_index_empty (q : String) :
    cachedRetrieveCompute emptyCollection q = some [] ∧
    cachedRetrieve emptyCollection [] q = some ([], [(q, [])]) := by
  constructor
  · rfl
  · show cachedRetrieve emptyCollection [] q = some ([], [(q, [])])
    simp [cachedRetrieve, alookup, cachedRetrieveCompute, emptyCollection, firstInner,
      formatHits, take_cacheSize_singleton]

/-- C8: load_from_file fails exactly when the lowercased splitext extension
of the path is none of .txt, .md, .pdf, and on success the source id is
file:// followed by the basename of the path. -/
theorem load_from_file_ext_spec (L : FileLoaders) (path : String) :
    ((∃ e, load_from_file L path = Except.error e) ↔
      strLower (splitextExt path) ∉ ([".txt", ".md", ".pdf"] : List String)) ∧
    (∀ src, load_from_file L path = Except.ok src →
      src.id = "file://" ++ basename path) := by
  by_cases h1 : strLower (splitextExt path) = ".txt" ∨ strLower (splitextExt path) = ".md"
  · refine ⟨⟨fun he => ?_, fun hm => ?_⟩, fun src hsrc => ?_⟩
    · obtain ⟨e, he⟩ := he
      simp only [load_from_file, if_pos h1] at he
      exact absurd he (by simp)
    · rcases h1 with h | h <;> simp [h] at hm
    · simp only [load_from_file, if_pos h1] at hsrc
      injection hsrc with hsrc
      subst hsrc
      rfl
  · by_cases h2 : strLower (splitextExt path) = ".pdf"
    · refine ⟨⟨fun he => ?_, fun hm => ?_⟩, fun src hsrc => ?_⟩
      · obtain ⟨e, he⟩ := he
        simp only [load_from_file, if_neg h1, if_pos h2] at he
        exact absurd he (by simp)
      · simp [h2] at hm
      · simp only [load_from_file, if_neg h1, if_pos h2] at hsrc
        injection hsrc with hsrc
        subst hsrc
        rfl
    · obtain ⟨h1a, h1b⟩ := not_or.mp h1
      refine ⟨⟨fun _ => ?_, fun _ => ?_⟩, fun src hsrc => ?_⟩
      · simp [h1a, h1b, h2]
      · exact ⟨"Unsupported file extension: " ++ strLower (splitextExt path),
          by simp only [load_from_file, if_neg h1, if_neg h2]⟩
      · simp only [load_from_file, if_neg h1, if_neg h2] at hsrc
        exact absurd hsrc (by simp)

/-- C8 witness: a path with uppercase extension .TXT loads successfully and
its source id is file:// followed by the basename. -/
theorem load_from_file_ext_spec_witness :
    ({ id := "file://Note.TXT", name := "Note.TXT", type := KnowledgeType.document,
        content := "alpha" } : KnowledgeSource).id = "file://" ++ basename "docs/Note.TXT" :=
  (load_from_file_ext_spec loaders0 "docs/Note.TXT").2
    ⟨"file://Note.TXT", "Note.TXT", KnowledgeType.document, "alpha"⟩ rfl

/-- C9: add_source_to_index and delete_source_from_index leave both lru
caches untouched, so a query cached before the mutation keeps returning the
value computed against the index state at the time it was cached, whatever
collection now backs the mutated index, with no recomputation. -/
theorem index_mutation_preserves_caches (split : String → List String)
    (src : KnowledgeSource) (sid : String) (s : AppState) (q : String)
    (v : List String) (k : String × String) (a : String)
    (hr : alookup q s.retrieveCache = some v) (ha : alookup k s.answerCache = some a) :
    (appAddSource split src s).retrieveCache = s.retrieveCache ∧
    (appAddSource split src s).answerCache = s.answerCache ∧
    (appDeleteSource split sid s).retrieveCache = s.retrieveCache ∧
    (appDeleteSource split sid s).answerCache = s.answerCache ∧
    (∀ col : ChromaCollection,
      (cachedRetrieve col (appAddSource split src s).retrieveCache q).map Prod.fst =
        some v) ∧
    (∀ col : ChromaCollection,
      (cachedRetrieve col (appDeleteSource split sid s).retrieveCache q).map Prod.fst =
        some v) ∧
    (∀ f : Unit → String,
      (cacheGetOrCompute (appAddSource split src s).answerCache k f).1 = a ∧
      (cacheGetOrCompute (appAddSource split src s).answerCache k f).2.2 = 0) ∧
    (∀ f : Unit → String,
      (cacheGetOrCompute (appDeleteSource split sid s).answerCache k f).1 = a ∧
      (cacheGetOrCompute (appDeleteSource split sid s).answerCache k f).2.2 = 0) := by
  refine ⟨rfl, rfl, rfl, rfl, ?_, ?_, ?_, ?_⟩ <;> intro x <;>
    simp [appAddSource, appDeleteSource, cachedRetrieve, cacheGetOrCompute, hr, ha]

/-- C9 witness: with concrete cached entries, both mutations preserve the
caches and the cached values keep being served. -/
theorem index_mutation_preserves_caches_witness :
    (appAddSource split1 srcB appState9).retrieveCache = appState9.retrieveCache ∧
    (cachedRetrieve emptyCollection (appAddSource split1 srcB appState9).retrieveCache
      "q").map Prod.fst = some ["[a.txt] alpha"] ∧
    (cacheGetOrCompute (appDeleteSource split1 "file://a.txt" appState9).answerCache
      ("q", "ctx") (fun _ => "new")).1 = "ans" := by
  have h := index_mutation_preserves_caches split1 srcB "file://a.txt" appState9 "q"
    ["[a.txt] alpha"] ("q", "ctx") "ans" (by decide) (by decide)
  exact ⟨h.1, h.2.2.2.2.1 emptyCollection, (h.2.2.2.2.2.2.2 (fun _ => "new")).1⟩

/-- C10: whenever a completed ask call computed a non-empty full answer
through _cached_answer, it yielded exactly one Content chunk carrying that
answer and never opened the stream; the streaming branch is reachable only
when the computed full answer is the empty string. -/
theorem ask_nonempty_answer_single_chunk (env : LLM) (llmArg : Option LLM)
    (col : ChromaCollection) (q : String) (history : List (String × String))
    (srcs : List (String × KnowledgeSource)) (rc : RetrieveCache) (ac : AnswerCache)
    (r : AskResult) (h : ask env llmArg col q history srcs rc ac = some r) :
    (r.fullAns ≠ "" → r.chunks = [⟨ChunkType.content, r.fullAns⟩] ∧
      r.streamOpened = false) ∧
    (r.streamOpened = true → r.fullAns = "") := by
  unfold ask at h
  split at h
  · exact absurd h (by simp)
  next hits rc1 heq =>
    unfold askAfterRetrieve at h
    split at h
    next hfa =>
      unfold askStream at h
      split at h
      · exact absurd h (by simp)
      next hits2 rc2 heq2 =>
        injection h with h
        subst h
        exact ⟨fun hne => absurd hfa hne, fun _ => hfa⟩
    next hfa =>
      injection h with h
      subst h
      exact ⟨fun _ => ⟨rfl, rfl⟩, fun hb => absurd hb (by simp)⟩

/-- C10 witness: the concrete non-empty answer "hello" is yielded as one
Content chunk with no stream opened. -/
theorem ask_nonempty_answer_single_chunk_witness :
    askHelloResult.chunks = [⟨ChunkType.content, askHelloResult.fullAns⟩] ∧
    askHelloResult.streamOpened = false :=
  (ask_nonempty_answer_single_chunk llmHello none emptyCollection "q" [] [] [] []
    askHelloResult rfl).1 (by decide)

end QuiverAI
